import Mathlib

/-!
Verification development for the C shim `src/vendor/miniaudio.c` of the
gameboy-zig repository.  The shim exposes five functions around the vendored
miniaudio library: build a playback configuration blob, initialize a device
(heap-allocating the handle), start the device, query the negotiated sample
rate, and tear the device down.

Shallow embedding choices:
  * Pointers are naturals; `NULL` is `0`.
  * The heap is an association list of live device cells.
  * The vendored native library (the functions `ma_device_init`,
    `ma_device_start`, `ma_device_uninit` and the header-only helper
    `ma_device_config_init`) is not part of `src/`; it is treated as a black
    box.  Its observable behaviour is a parameter `NativeEnv`, and calls into
    it are recorded in an event trace, together with `malloc`/`free` events.
  * `malloc` may fail; its outcome is the explicit parameter
    `mallocRes : Option Ptr`, with freshness a hypothesis where needed.
  * A C function whose execution can dereference an invalid pointer
    (undefined behaviour) is embedded with result type `Option _`;
    `none` is the fault.
  * The opaque 512-byte configuration blob is modelled as its two
    meaningful regions: the leading `sizeof(ma_device_config)` bytes,
    interpreted as the native configuration record, and the bytes beyond the
    copied native configuration.
-/

abbrev Ptr := Nat

def NULL : Ptr := 0

/-- A miniaudio result code (`ma_result`). -/
abbrev MaResult := Int

/-- `MA_SUCCESS` is 0 in miniaudio. -/
def MA_SUCCESS : MaResult := 0

/-- Modelled from the spec: the enumerator `ma_device_type_playback` of the
vendored header `miniaudio.h`, which is absent from `src/`.  The claims only
need it as a distinguished constant naming the playback device kind. -/
def ma_device_type_playback : Nat := 2

/-- Modelled from the spec: the enumerator `ma_format_f32` (32-bit float
sample format) of the vendored header, absent from `src/`. -/
def ma_format_f32 : Nat := 5

/-- The fields of the native `ma_device_config` that the shim writes, plus one
abstract field standing for everything else the native initializer sets.
The struct itself lives in the vendored header, absent from `src/`. -/
structure MaDeviceConfig where
  deviceType : Nat
  playbackFormat : Nat
  playbackChannels : Nat
  sampleRate : Nat
  dataCallback : Nat
  pUserData : Nat
  otherFields : Nat
deriving DecidableEq, Repr

/-- All-zero native configuration record (the reading of all-zero bytes). -/
def zeroMaDeviceConfig : MaDeviceConfig :=
  { deviceType := 0, playbackFormat := 0, playbackChannels := 0,
    sampleRate := 0, dataCallback := 0, pUserData := 0, otherFields := 0 }

/-- Modelled from the spec: `ma_device_config_init` lives in the vendored
header, absent from `src/`.  Per the spec it yields a zero-initialized
configuration with the device kind populated. -/
def ma_device_config_init (deviceType : Nat) : MaDeviceConfig :=
  { zeroMaDeviceConfig with deviceType := deviceType }

/-- The 512-byte opaque blob `zig_ma_device_config`, modelled as its two
regions: the leading `sizeof(ma_device_config)` bytes read as the native
configuration, and the trailing bytes beyond the copied configuration. -/
structure ZigMaDeviceConfig where
  cfg : MaDeviceConfig
  tail : Nat → Nat

/-- `sizeof(zig_ma_device_config)`: the blob is a fixed 512-byte buffer. -/
def sizeof_zig_ma_device_config : Nat := 512

/-- Modelled from the spec: the build-time check
`_Static_assert(sizeof(zig_ma_device_config) >= sizeof(ma_device_config), ...)`
as the Prop it asserts, with the platform-dependent native size
`sizeof(ma_device_config)` (whose definition is in the vendored header,
absent from `src/`) as a parameter.  The spec reads the check as
"≥ native struct size, checked at build time". -/
def zig_static_assert (sizeof_ma_device_config : Nat) : Prop :=
  sizeof_zig_ma_device_config ≥ sizeof_ma_device_config

instance (n : Nat) : Decidable (zig_static_assert n) := by
  unfold zig_static_assert; infer_instance

/-- The native device record `ma_device`, reduced to the one field the shim
reads (`device->sampleRate`) plus an abstract remainder. -/
structure MaDevice where
  sampleRate : Nat
  nativeState : Nat
deriving DecidableEq, Repr

/-- The heap: association list of live `ma_device` cells, newest first. -/
structure HeapState where
  cells : List (Ptr × MaDevice)
deriving DecidableEq, Repr

def HeapState.lookup (h : HeapState) (p : Ptr) : Option MaDevice :=
  h.cells.lookup p

def HeapState.alloc (h : HeapState) (p : Ptr) (d : MaDevice) : HeapState :=
  ⟨(p, d) :: h.cells⟩

def HeapState.free (h : HeapState) (p : Ptr) : HeapState :=
  ⟨h.cells.filter (fun c => c.1 ≠ p)⟩

def HeapState.update (h : HeapState) (p : Ptr) (d : MaDevice) : HeapState :=
  ⟨h.cells.map (fun c => if c.1 = p then (p, d) else c)⟩

/-- The observable events of a shim call: allocator traffic and calls into
the native library. -/
inductive Event where
  | evMalloc (res : Option Ptr)
  | evFree (p : Ptr)
  | evMaDeviceInit
  | evMaDeviceStart
  | evMaDeviceUninit
deriving DecidableEq, Repr

/-- Black-box behaviour of the vendored native library.
`maDeviceInit` returns the `ma_result` code together with the device record
it writes into the malloc-ed cell; `maDeviceStart` returns the (discarded)
`ma_result` code and the device record after starting. -/
structure NativeEnv where
  maDeviceInit : ZigMaDeviceConfig → MaResult × MaDevice
  maDeviceStart : MaDevice → MaResult × MaDevice

/-- Program state threaded through the shim calls: the heap plus the caller
blob that `zig_ma_device_init` receives a const pointer to. -/
structure ProgState where
  heap : HeapState
  callerBlob : ZigMaDeviceConfig

/-- Embedding of `zig_ma_device_config_playback` (miniaudio.c lines 13-24).
`stack_garbage` is the arbitrary content of the uninitialized stack variable
`result` before `memset`; pointers (`callback`, `user_data`) are naturals. -/
def zig_ma_device_config_playback (sample_rate callback user_data : Nat)
    (stack_garbage : ZigMaDeviceConfig) : ZigMaDeviceConfig :=
  let result := stack_garbage
  let result : ZigMaDeviceConfig :=
    { cfg := zeroMaDeviceConfig, tail := fun _ => 0 }
  let cfg := ma_device_config_init ma_device_type_playback
  let cfg := { cfg with playbackFormat := ma_format_f32 }
  let cfg := { cfg with playbackChannels := 1 }
  let cfg := { cfg with sampleRate := sample_rate }
  let cfg := { cfg with dataCallback := callback }
  let cfg := { cfg with pUserData := user_data }
  { result with cfg := cfg }

/-- Embedding of `zig_ma_device_init` (miniaudio.c lines 26-34).
`mallocRes` is the outcome of `malloc(sizeof(ma_device))` (`none` = NULL);
`junk` is the uninitialized content of the fresh cell.  Returns the handle
(`none` = NULL), the final state, and the event trace. -/
def zig_ma_device_init (env : NativeEnv) (mallocRes : Option Ptr)
    (junk : MaDevice) (s : ProgState) :
    Option Ptr × ProgState × List Event :=
  match mallocRes with
  | none => (none, s, [Event.evMalloc none])
  | some p =>
    let s1 : ProgState := { s with heap := s.heap.alloc p junk }
    let r := env.maDeviceInit s.callerBlob
    if r.1 ≠ MA_SUCCESS then
      (none, { s1 with heap := (s1.heap.update p r.2).free p },
        [Event.evMalloc (some p), Event.evMaDeviceInit, Event.evFree p])
    else
      (some p, { s1 with heap := s1.heap.update p r.2 },
        [Event.evMalloc (some p), Event.evMaDeviceInit])

/-- Embedding of `zig_ma_device_start` (miniaudio.c lines 36-38): calls
`ma_device_start(device)` and discards its result code.  A fault
(dereference of an invalid handle inside the native call) is `none`. -/
def zig_ma_device_start (env : NativeEnv) (p : Ptr) (s : ProgState) :
    Option (ProgState × List Event) :=
  match s.heap.lookup p with
  | none => none
  | some dev =>
    let r := env.maDeviceStart dev
    some ({ s with heap := s.heap.update p r.2 }, [Event.evMaDeviceStart])

/-- Embedding of `zig_ma_device_get_sample_rate` (miniaudio.c lines 40-42):
reads `device->sampleRate`.  A fault (invalid handle) is `none`; on success
it returns the value, the (unchanged) state and the (empty) event trace. -/
def zig_ma_device_get_sample_rate (p : Ptr) (s : ProgState) :
    Option (Nat × ProgState × List Event) :=
  match s.heap.lookup p with
  | none => none
  | some dev => some (dev.sampleRate, s, [])

/-- Embedding of `zig_ma_device_uninit` (miniaudio.c lines 44-49): null check,
then `ma_device_uninit(device)` followed by `free(device)`.  A fault (native
teardown dereferencing a dangling non-null handle) is `none`. -/
def zig_ma_device_uninit (p : Ptr) (s : ProgState) :
    Option (ProgState × List Event) :=
  if p = NULL then
    some (s, [])
  else
    match s.heap.lookup p with
    | none => none
    | some _ =>
      some ({ s with heap := s.heap.free p },
        [Event.evMaDeviceUninit, Event.evFree p])

/-! ### Heap lemmas -/

lemma HeapState.free_update (h : HeapState) (p : Ptr) (d : MaDevice) :
    (h.update p d).free p = h.free p := by
  obtain ⟨l⟩ := h
  simp only [HeapState.update, HeapState.free, HeapState.mk.injEq]
  induction l with
  | nil => rfl
  | cons c t ih =>
    simp only [decide_not] at ih ⊢
    by_cases hk : c.1 = p
    · simp [List.filter, hk, ih]
    · simp [List.filter, hk, ih]

lemma HeapState.free_alloc (h : HeapState) (p : Ptr) (junk : MaDevice) :
    (h.alloc p junk).free p = h.free p := by
  obtain ⟨l⟩ := h
  simp [HeapState.alloc, HeapState.free, List.filter]

lemma HeapState.free_of_fresh (h : HeapState) (p : Ptr)
    (hf : h.lookup p = none) : h.free p = h := by
  obtain ⟨l⟩ := h
  simp only [HeapState.lookup] at hf
  simp only [HeapState.free, HeapState.mk.injEq]
  induction l with
  | nil => rfl
  | cons c t ih =>
    obtain ⟨k, v⟩ := c
    by_cases hk : p = k
    · subst hk
      simp [List.lookup] at hf
    · rw [List.lookup] at hf
      rw [beq_false_of_ne hk] at hf
      simp only [List.filter]
      rw [ih hf]
      simp [Ne.symm hk]

lemma HeapState.lookup_update_alloc (h : HeapState) (p : Ptr)
    (junk d : MaDevice) : ((h.alloc p junk).update p d).lookup p = some d := by
  obtain ⟨l⟩ := h
  simp only [HeapState.alloc, HeapState.update, HeapState.lookup, List.map_cons,
    if_true, eq_self_iff_true]
  simp [List.lookup]

/-! ### Concrete fixtures used by the witness theorems -/

def testBlob : ZigMaDeviceConfig :=
  zig_ma_device_config_playback 48000 7 9 ⟨zeroMaDeviceConfig, fun _ => 0⟩

def testDev : MaDevice := { sampleRate := 48000, nativeState := 0 }

def testJunk : MaDevice := { sampleRate := 0, nativeState := 0 }

def testEnvOk : NativeEnv :=
  { maDeviceInit := fun _ => (MA_SUCCESS, testDev),
    maDeviceStart := fun d => (MA_SUCCESS, d) }

def testEnvStartFail : NativeEnv :=
  { maDeviceInit := fun _ => (MA_SUCCESS, testDev),
    maDeviceStart := fun d => (-1, d) }

def testS0 : ProgState := { heap := ⟨[]⟩, callerBlob := testBlob }

def testS1 : ProgState := { heap := ⟨[(1, testDev)]⟩, callerBlob := testBlob }

/-! ### Claim theorems -/

/-- Claim C2: for every sample_rate, callback and user_data (and every
content of the uninitialized stack variable), `zig_ma_device_config_playback`
succeeds and returns a blob whose configuration is playback kind, 32-bit
float format, 1 channel, the given sample rate, callback and user_data, with
every byte beyond the copied native configuration equal to zero.  Totality
(no error path) is the totality of the Lean function itself. -/
theorem zig_ma_device_config_playback_spec
    (sample_rate callback user_data : Nat) (stack_garbage : ZigMaDeviceConfig) :
    (zig_ma_device_config_playback sample_rate callback user_data
      stack_garbage).cfg.deviceType = ma_device_type_playback ∧
    (zig_ma_device_config_playback sample_rate callback user_data
      stack_garbage).cfg.playbackFormat = ma_format_f32 ∧
    (zig_ma_device_config_playback sample_rate callback user_data
      stack_garbage).cfg.playbackChannels = 1 ∧
    (zig_ma_device_config_playback sample_rate callback user_data
      stack_garbage).cfg.sampleRate = sample_rate ∧
    (zig_ma_device_config_playback sample_rate callback user_data
      stack_garbage).cfg.dataCallback = callback ∧
    (zig_ma_device_config_playback sample_rate callback user_data
      stack_garbage).cfg.pUserData = user_data ∧
    (∀ i, (zig_ma_device_config_playback sample_rate callback user_data
      stack_garbage).tail i = 0) :=
  ⟨rfl, rfl, rfl, rfl, rfl, rfl, fun _ => rfl⟩

/-- Claim C9: `zig_ma_device_config_playback` is deterministic — the result is
byte-identical for equal inputs, independent of the uninitialized stack
content that the memset overwrites. -/
theorem zig_ma_device_config_playback_deterministic
    (sample_rate callback user_data : Nat) (g1 g2 : ZigMaDeviceConfig) :
    zig_ma_device_config_playback sample_rate callback user_data g1 =
      zig_ma_device_config_playback sample_rate callback user_data g2 :=
  rfl

/-- Claim C8: `zig_ma_device_init` never writes through its config argument —
the caller blob after the call equals the blob before it, on every path
(malloc failure, native init failure, success). -/
theorem zig_ma_device_init_frame_spec (env : NativeEnv)
    (mallocRes : Option Ptr) (junk : MaDevice) (s : ProgState) :
    ((zig_ma_device_init env mallocRes junk s).2.1).callerBlob =
      s.callerBlob := by
  cases mallocRes with
  | none => rfl
  | some p =>
    by_cases hc : (env.maDeviceInit s.callerBlob).1 ≠ MA_SUCCESS
    · simp [zig_ma_device_init, hc]
    · simp [zig_ma_device_init, hc]

/-- Claim C4: the opaque blob is a fixed 512-byte buffer and the build-time
static assertion bounds the native configuration size by the blob storage
size.  The bound is established only by the build-time check (the hypothesis
here); no operation of the shim consults it at runtime, as none of the
runtime definitions in this file mention it. -/
theorem zig_ma_device_config_size_spec (sizeof_native : Nat)
    (hbuild : zig_static_assert sizeof_native) :
    sizeof_zig_ma_device_config = 512 ∧
    sizeof_native ≤ sizeof_zig_ma_device_config :=
  ⟨rfl, hbuild⟩

/-- Witness for C4 at a concrete native size below 512. -/
theorem zig_ma_device_config_size_spec_witness :
    sizeof_zig_ma_device_config = 512 ∧
    400 ≤ sizeof_zig_ma_device_config :=
  zig_ma_device_config_size_spec 400 (by decide)

/-- Claim C3: `zig_ma_device_uninit` on the null handle is a no-op that never
faults, with no native uninit call and no free (empty event trace); on a
non-null live handle it calls the native teardown and then frees the cell
(events in that order), removing the cell from the heap. -/
theorem zig_ma_device_uninit_spec (p : Ptr) (dev : MaDevice) (s : ProgState)
    (hp : p ≠ NULL) (hlive : s.heap.lookup p = some dev) :
    zig_ma_device_uninit NULL s = some (s, []) ∧
    zig_ma_device_uninit p s =
      some ({ s with heap := s.heap.free p },
        [Event.evMaDeviceUninit, Event.evFree p]) := by
  constructor
  · simp [zig_ma_device_uninit]
  · simp [zig_ma_device_uninit, hp, hlive]

/-- Witness for C3 at pointer 1 of a one-cell heap. -/
theorem zig_ma_device_uninit_spec_witness :
    zig_ma_device_uninit NULL testS1 = some (testS1, []) ∧
    zig_ma_device_uninit 1 testS1 =
      some ({ testS1 with heap := testS1.heap.free 1 },
        [Event.evMaDeviceUninit, Event.evFree 1]) :=
  zig_ma_device_uninit_spec 1 testDev testS1 (by decide) (by decide)

/-- Claim C10: `zig_ma_device_get_sample_rate` on a live handle is a pure
read: it returns the stored sample rate, leaves the state unchanged, and
performs no allocation, free, or native call (empty event trace). -/
theorem zig_ma_device_get_sample_rate_pure_spec (p : Ptr) (dev : MaDevice)
    (s : ProgState) (hlive : s.heap.lookup p = some dev) :
    zig_ma_device_get_sample_rate p s = some (dev.sampleRate, s, []) := by
  simp [zig_ma_device_get_sample_rate, hlive]

/-- Witness for C10 at pointer 1 of a one-cell heap. -/
theorem zig_ma_device_get_sample_rate_pure_spec_witness :
    zig_ma_device_get_sample_rate 1 testS1 =
      some (testDev.sampleRate, testS1, []) :=
  zig_ma_device_get_sample_rate_pure_spec 1 testDev testS1 (by decide)

/-- Claim C5: `zig_ma_device_start` surfaces no error.  On a live handle it
always succeeds (no fault, regardless of the native result code), its
observable outcome is fully independent of the result code of the native
start call (two native layers whose start calls differ only in the returned
code yield identical outcomes, so a caller cannot detect start failure), and
its result carries only the updated state and the trace — no code. -/
theorem zig_ma_device_start_spec (env1 env2 : NativeEnv) (p : Ptr)
    (s : ProgState) (dev : MaDevice)
    (hsame : ∀ d, (env1.maDeviceStart d).2 = (env2.maDeviceStart d).2)
    (hlive : s.heap.lookup p = some dev) :
    zig_ma_device_start env1 p s = zig_ma_device_start env2 p s ∧
    (zig_ma_device_start env1 p s).isSome = true ∧
    zig_ma_device_start env1 p s =
      some ({ s with heap := s.heap.update p (env1.maDeviceStart dev).2 },
        [Event.evMaDeviceStart]) := by
  refine ⟨?_, ?_, ?_⟩ <;>
    simp [zig_ma_device_start, hlive, hsame dev]

/-- Witness for C5: a native layer whose start succeeds against one whose
start fails with code -1 but moves the device identically. -/
theorem zig_ma_device_start_spec_witness :
    zig_ma_device_start testEnvOk 1 testS1 =
      zig_ma_device_start testEnvStartFail 1 testS1 ∧
    (zig_ma_device_start testEnvOk 1 testS1).isSome = true ∧
    zig_ma_device_start testEnvOk 1 testS1 =
      some ({ testS1 with
          heap := testS1.heap.update 1 (testEnvOk.maDeviceStart testDev).2 },
        [Event.evMaDeviceStart]) :=
  zig_ma_device_start_spec testEnvOk testEnvStartFail 1 testS1 testDev
    (fun _ => rfl) (by decide)

/-- Claim C7: `zig_ma_device_start` and `zig_ma_device_get_sample_rate`
perform no defensive null check — on the null handle they fault (undefined
behaviour), while on a non-null live handle they are safe — whereas
`zig_ma_device_uninit` does check and is a no-op on null. -/
theorem null_check_discipline_spec (env : NativeEnv) (s : ProgState)
    (p : Ptr) (dev : MaDevice)
    (hwf : s.heap.lookup NULL = none) (hp : p ≠ NULL)
    (hlive : s.heap.lookup p = some dev) :
    zig_ma_device_start env NULL s = none ∧
    zig_ma_device_get_sample_rate NULL s = none ∧
    zig_ma_device_uninit NULL s = some (s, []) ∧
    (zig_ma_device_start env p s).isSome = true ∧
    (zig_ma_device_get_sample_rate p s).isSome = true := by
  refine ⟨?_, ?_, ?_, ?_, ?_⟩ <;>
    simp [zig_ma_device_start, zig_ma_device_get_sample_rate,
      zig_ma_device_uninit, hwf, hlive]

/-- Witness for C7 at pointer 1 of a one-cell heap. -/
theorem null_check_discipline_spec_witness :
    zig_ma_device_start testEnvOk NULL testS1 = none ∧
    zig_ma_device_get_sample_rate NULL testS1 = none ∧
    zig_ma_device_uninit NULL testS1 = some (testS1, []) ∧
    (zig_ma_device_start testEnvOk 1 testS1).isSome = true ∧
    (zig_ma_device_get_sample_rate 1 testS1).isSome = true :=
  null_check_discipline_spec testEnvOk testS1 1 testDev
    (by decide) (by decide) (by decide)

/-- Claim C1: `zig_ma_device_init` returns null exactly on the error paths
and leaks nothing.  On malloc failure it returns null with the state
unchanged and no native init call in the trace; on native init failure it
frees the allocation (final heap equals the initial heap, with the free in
the trace) and returns null; on success it returns the non-null handle whose
cell holds the device record the native initializer wrote. -/
theorem zig_ma_device_init_spec (env : NativeEnv) (junk : MaDevice)
    (s : ProgState) (mallocRes : Option Ptr)
    (hfresh : ∀ p, mallocRes = some p → p ≠ NULL ∧ s.heap.lookup p = none) :
    (mallocRes = none →
      (zig_ma_device_init env mallocRes junk s).1 = none ∧
      (zig_ma_device_init env mallocRes junk s).2.1 = s ∧
      Event.evMaDeviceInit ∉ (zig_ma_device_init env mallocRes junk s).2.2) ∧
    (∀ p, mallocRes = some p →
      ((env.maDeviceInit s.callerBlob).1 ≠ MA_SUCCESS →
        (zig_ma_device_init env mallocRes junk s).1 = none ∧
        (zig_ma_device_init env mallocRes junk s).2.1.heap = s.heap ∧
        Event.evFree p ∈ (zig_ma_device_init env mallocRes junk s).2.2) ∧
      ((env.maDeviceInit s.callerBlob).1 = MA_SUCCESS →
        (zig_ma_device_init env mallocRes junk s).1 = some p ∧
        p ≠ NULL ∧
        (zig_ma_device_init env mallocRes junk s).2.1.heap.lookup p =
          some (env.maDeviceInit s.callerBlob).2)) := by
  constructor
  · intro hnone
    subst hnone
    exact ⟨rfl, rfl, by simp [zig_ma_device_init]⟩
  · intro p hp
    subst hp
    constructor
    · intro hne
      refine ⟨by simp [zig_ma_device_init, hne], ?_, by simp [zig_ma_device_init, hne]⟩
      have hheap : (zig_ma_device_init env (some p) junk s).2.1.heap =
          ((s.heap.alloc p junk).update p (env.maDeviceInit s.callerBlob).2).free p := by
        simp [zig_ma_device_init, hne]
      rw [hheap, HeapState.free_update, HeapState.free_alloc,
        HeapState.free_of_fresh s.heap p (hfresh p rfl).2]
    · intro heq
      refine ⟨by simp [zig_ma_device_init, heq], (hfresh p rfl).1, ?_⟩
      have hheap : (zig_ma_device_init env (some p) junk s).2.1.heap =
          (s.heap.alloc p junk).update p (env.maDeviceInit s.callerBlob).2 := by
        simp [zig_ma_device_init, heq]
      rw [hheap, HeapState.lookup_update_alloc]

/-- Witness for C1: the success path at a fresh pointer 1 on the empty heap,
with a native layer whose init succeeds. -/
theorem zig_ma_device_init_spec_witness :
    (zig_ma_device_init testEnvOk (some 1) testJunk testS0).1 = some 1 ∧
    (1 : Ptr) ≠ NULL ∧
    (zig_ma_device_init testEnvOk (some 1) testJunk testS0).2.1.heap.lookup 1 =
      some (testEnvOk.maDeviceInit testS0.callerBlob).2 :=
  ((zig_ma_device_init_spec testEnvOk testJunk testS0 (some 1)
      (fun p hp => by cases hp; exact ⟨by decide, by decide⟩)).2 1 rfl).2 rfl

/-- Claim C6: after a successful init at a fresh non-null pointer, with the
native layer guaranteeing a positive negotiated rate,
`zig_ma_device_get_sample_rate` returns exactly the stored negotiated
sampleRate (a positive value), and when the backend honors the request
exactly it equals the sample rate requested in the caller blob. -/
theorem zig_ma_device_get_sample_rate_after_init_spec (env : NativeEnv)
    (junk : MaDevice) (s : ProgState) (p : Ptr)
    (hp : p ≠ NULL)
    (hcode : (env.maDeviceInit s.callerBlob).1 = MA_SUCCESS)
    (hpos : 0 < (env.maDeviceInit s.callerBlob).2.sampleRate) :
    (zig_ma_device_init env (some p) junk s).1 = some p ∧
    p ≠ NULL ∧
    zig_ma_device_get_sample_rate p
        (zig_ma_device_init env (some p) junk s).2.1 =
      some ((env.maDeviceInit s.callerBlob).2.sampleRate,
        (zig_ma_device_init env (some p) junk s).2.1, []) ∧
    0 < (env.maDeviceInit s.callerBlob).2.sampleRate ∧
    ((env.maDeviceInit s.callerBlob).2.sampleRate =
        s.callerBlob.cfg.sampleRate →
      zig_ma_device_get_sample_rate p
          (zig_ma_device_init env (some p) junk s).2.1 =
        some (s.callerBlob.cfg.sampleRate,
          (zig_ma_device_init env (some p) junk s).2.1, [])) := by
  have hheap : (zig_ma_device_init env (some p) junk s).2.1.heap =
      (s.heap.alloc p junk).update p (env.maDeviceInit s.callerBlob).2 := by
    simp [zig_ma_device_init, hcode]
  have hget : zig_ma_device_get_sample_rate p
      (zig_ma_device_init env (some p) junk s).2.1 =
      some ((env.maDeviceInit s.callerBlob).2.sampleRate,
        (zig_ma_device_init env (some p) junk s).2.1, []) := by
    rw [zig_ma_device_get_sample_rate, hheap, HeapState.lookup_update_alloc]
  refine ⟨by simp [zig_ma_device_init, hcode], hp, hget, hpos, ?_⟩
  intro hhon
  rw [hget, hhon]

/-- Witness for C6: init at pointer 1 on the empty heap with the test blob
requesting 48000 Hz and a native layer that honors it exactly. -/
theorem zig_ma_device_get_sample_rate_after_init_spec_witness :
    (zig_ma_device_init testEnvOk (some 1) testJunk testS0).1 = some 1 ∧
    (1 : Ptr) ≠ NULL ∧
    zig_ma_device_get_sample_rate 1
        (zig_ma_device_init testEnvOk (some 1) testJunk testS0).2.1 =
      some ((testEnvOk.maDeviceInit testS0.callerBlob).2.sampleRate,
        (zig_ma_device_init testEnvOk (some 1) testJunk testS0).2.1, []) ∧
    0 < (testEnvOk.maDeviceInit testS0.callerBlob).2.sampleRate ∧
    ((testEnvOk.maDeviceInit testS0.callerBlob).2.sampleRate =
        testS0.callerBlob.cfg.sampleRate →
      zig_ma_device_get_sample_rate 1
          (zig_ma_device_init testEnvOk (some 1) testJunk testS0).2.1 =
        some (testS0.callerBlob.cfg.sampleRate,
          (zig_ma_device_init testEnvOk (some 1) testJunk testS0).2.1, [])) :=
  zig_ma_device_get_sample_rate_after_init_spec testEnvOk testJunk testS0 1
    (by decide) rfl (by decide)
